import Mathlib

/-!
Shallow embedding of `src/redux/store.py` (CCI-Tools/redux): a minimal
unidirectional state container (`Store`, `create_store`) and a reducer
composer (`combine_reducers`).

Modelling choices:
* Python reference identity (`is` / `is not`) on states is modelled by
  decidable equality on the state type `S`.  A state type whose values
  carry an explicit reference tag (as `CState` below does for composite
  dictionaries) makes this equality coincide with CPython object identity.
* Any Python call may raise, so reducers are fallible: `S → A → Except E S`.
  A raised exception is `.error e`; normal return is `.ok`.
* Listeners are identified by values of an abstract type `L` with decidable
  equality (Python compares functions by identity in `in` / `remove`).
  Invoking a listener is recorded as a notification triple
  `(listener, old_state, new_state)`; `dispatch` returns the list of
  notifications it performs, in the order it performs them.
* `OrderedDict` allocation in `combine_reducers` is modelled by passing the
  fresh reference id of the newly built dictionary explicitly; freshness
  (the new id differs from every live id) is a hypothesis of the theorems
  that speak about reference identity of the result.
-/

namespace Redux

/-- Python source, `Store.__init__` / `Store.state` / `Store.dispatch` /
`Store.subscribe`: the store holds a reducer, the current state and the
listener registry (a Python `list`, insertion ordered). -/
structure Store (S A L E : Type) where
  reducer : S → A → Except E S
  state : S
  listeners : List L

/-- Python source, `Store.__init__`: `self._reducer = reducer`,
`self._state = None`, `self._listeners = []`.  The Python `None` initial
state is the explicit argument `noneS`. -/
def Store.init {S A L E : Type} (reducer : S → A → Except E S) (noneS : S) :
    Store S A L E :=
  { reducer := reducer, state := noneS, listeners := [] }

/-- Python source, `Store.dispatch`:
`prev_state = self._state; new_state = self._reducer(prev_state, action);
self._state = new_state; if prev_state is not new_state: for listener in
self._listeners: listener(prev_state, new_state)`.
If the reducer raises, the exception propagates and the store is unchanged
(the returned value is `.error e`, so the caller keeps the old store).
Otherwise the result is the updated store together with the list of listener
invocations performed, in registry order. -/
def Store.dispatch {S A L E : Type} [DecidableEq S]
    (st : Store S A L E) (action : A) :
    Except E (Store S A L E × List (L × S × S)) :=
  match st.reducer st.state action with
  | .error e => .error e
  | .ok next =>
      .ok ({ st with state := next },
           if st.state = next then []
           else st.listeners.map (fun l => (l, st.state, next)))

/-- Python source, `Store.subscribe`:
`if listener not in self._listeners: self._listeners.append(listener)`. -/
def Store.subscribe {S A L E : Type} [DecidableEq L]
    (st : Store S A L E) (l : L) : Store S A L E :=
  if l ∈ st.listeners then st
  else { st with listeners := st.listeners ++ [l] }

/-- Python source, the closure `remove_listener` returned by
`Store.subscribe`: `if listener in self._listeners:
self._listeners.remove(listener)`.  Python `list.remove` deletes the first
occurrence, as `List.erase` does. -/
def remove_listener {S A L E : Type} [DecidableEq L]
    (st : Store S A L E) (l : L) : Store S A L E :=
  if l ∈ st.listeners then { st with listeners := st.listeners.erase l }
  else st

/-- Python source, `create_store`: `store = Store(reducer);
store.dispatch(None); return store`.  The Python `None` initial state and
`None` init action are the explicit arguments `noneS`, `noneA`. -/
def create_store {S A L E : Type} [DecidableEq S]
    (reducer : S → A → Except E S) (noneS : S) (noneA : A) :
    Except E (Store S A L E) :=
  match (Store.init (L := L) reducer noneS).dispatch noneA with
  | .error e => .error e
  | .ok (store2, _) => .ok store2

/-- Dispatching a list of actions in sequence, collecting all listener
notifications; a raised exception aborts the sequence, leaving the store as
it was before the failing dispatch (as in Python, where the caller's store
reference is unchanged by a raising `dispatch`). -/
def dispatchAll {S A L E : Type} [DecidableEq S] :
    Store S A L E → List A → Store S A L E × List (L × S × S)
  | st, [] => (st, [])
  | st, a :: as =>
    match st.dispatch a with
    | .error _ => (st, [])
    | .ok (st2, ntf) =>
        ((dispatchAll st2 as).1, ntf ++ (dispatchAll st2 as).2)

/-! ## Reducer composer (`combine_reducers`)

Slice values have type `V`.  The composite state passed to a combined
reducer is dynamically typed in Python; the two state shapes the code
touches are a subscriptable ordered mapping (no factory) and an
attribute-bearing object (with factory), and in both modes the Python
`None` initial state can reach the combined reducer, so the model includes
it as a constructor.  `PyErr` collects the exceptions the composer's own
code can raise, alongside exceptions `E` raised by sub-reducers. -/

/-- Exceptions arising in a combined reducer: `typeErr` for subscripting a
non-subscriptable value (`None[name]`), `keyErr` for a missing dictionary
key, `attrErr` for a missing attribute (including any attribute of `None`),
and `user e` for an exception raised by a sub-reducer itself. -/
inductive PyErr (E : Type) where
  | typeErr
  | keyErr
  | attrErr
  | user (e : E)
deriving DecidableEq

/-- Composite state for the no-factory mode: Python `None`, or a
(subscriptable, ordered) dictionary with reference id `ref` and entries in
insertion order. -/
inductive CState (V : Type) where
  | none
  | dict (ref : Nat) (entries : List (String × V))
deriving DecidableEq

/-- Composite state for the factory mode: Python `None`, or an object with
reference id `ref` exposing `attrs` as named attributes. -/
inductive AState (V : Type) where
  | none
  | obj (ref : Nat) (attrs : List (String × V))
deriving DecidableEq

/-- Python `state[name]` on a composite state: subscripting `None` raises
`TypeError`; a missing key raises `KeyError`. -/
def subscript {V E : Type} : CState V → String → Except (PyErr E) V
  | .none, _ => .error .typeErr
  | .dict _ es, name =>
    match es.lookup name with
    | some v => .ok v
    | Option.none => .error .keyErr

/-- Python `getattr(state, name)`: any attribute access on `None` raises
`AttributeError`, as does a missing attribute on an object. -/
def getattr {V E : Type} : AState V → String → Except (PyErr E) V
  | .none, _ => .error .attrErr
  | .obj _ as_, name =>
    match as_.lookup name with
    | some v => .ok v
    | Option.none => .error .attrErr

/-- Python source, the list comprehension
`[(name, reducer(state[name], action)) for name, reducer in reducers.items()]`
inside the no-factory `reduce`: for each named sub-reducer in declared
order, read the slice by keyed lookup, run the sub-reducer on it, and
collect the result under the same name; the first raised exception
propagates. -/
def runSlices {V A E : Type}
    (reducers : List (String × (V → A → Except (PyErr E) V)))
    (state : CState V) (action : A) :
    Except (PyErr E) (List (String × V)) :=
  match reducers with
  | [] => .ok []
  | (name, r) :: rest =>
    match subscript state name with
    | .error e => .error e
    | .ok slice =>
      match r slice action with
      | .error e => .error e
      | .ok v =>
        match runSlices rest state action with
        | .error e => .error e
        | .ok tail => .ok ((name, v) :: tail)

/-- Python source, the list comprehension
`[(name, reducer(getattr(state, name), action)) for name, reducer in
reducers.items()]` inside the factory-mode `reduce`: as `runSlices` but the
slice is read as a named attribute. -/
def runSlicesAttr {V A E : Type}
    (reducers : List (String × (V → A → Except (PyErr E) V)))
    (state : AState V) (action : A) :
    Except (PyErr E) (List (String × V)) :=
  match reducers with
  | [] => .ok []
  | (name, r) :: rest =>
    match getattr state name with
    | .error e => .error e
    | .ok slice =>
      match r slice action with
      | .error e => .error e
      | .ok v =>
        match runSlicesAttr rest state action with
        | .error e => .error e
        | .ok tail => .ok ((name, v) :: tail)

/-- Python source, `combine_reducers` with `_state_factory_ is None`:
`def reduce(state, action): return OrderedDict([...])`.  The freshly
allocated `OrderedDict` gets the reference id `fresh`; CPython guarantees
`fresh` differs from the id of every object alive at that moment. -/
def combine_reducers {V A E : Type}
    (reducers : List (String × (V → A → Except (PyErr E) V)))
    (fresh : Nat) (state : CState V) (action : A) :
    Except (PyErr E) (CState V) :=
  match runSlices reducers state action with
  | .error e => .error e
  | .ok entries => .ok (.dict fresh entries)

/-- Python source, `combine_reducers` with a state factory:
`def reduce(state, action): kwargs = OrderedDict([...]);
return _state_factory_(**kwargs)`.  The factory is an arbitrary caller
function of the named results; its output `W` is whatever it constructs. -/
def combine_reducers_factory {V A E W : Type}
    (stateFactory : List (String × V) → W)
    (reducers : List (String × (V → A → Except (PyErr E) V)))
    (state : AState V) (action : A) :
    Except (PyErr E) W :=
  match runSlicesAttr reducers state action with
  | .error e => .error e
  | .ok kwargs => .ok (stateFactory kwargs)

/-! ## Concrete instances (used to evaluate the theorems on real inputs) -/

/-- A reducer that always produces a strictly larger (hence new) state. -/
def incR : Nat → Unit → Except Unit Nat := fun s _ => .ok (s + 1)

/-- A store holding state `0` with two subscribed listeners `1`, `2`. -/
def incStore : Store Nat Unit Nat Unit :=
  { reducer := incR, state := 0, listeners := [1, 2] }

/-- A store whose reducer returns its input state unchanged. -/
def idStore : Store Nat Unit Nat Unit :=
  { reducer := fun s _ => .ok s, state := 5, listeners := [7] }

/-- A store whose reducer always raises. -/
def raisingStore : Store Nat Unit Nat String :=
  { reducer := fun _ _ => .error "boom", state := 3, listeners := [1] }

/-- A slice reducer that returns its slice unchanged (used to exercise the
"newly allocated even when no slice changed" part of the composer laws). -/
def idV : Nat → Unit → Except (PyErr Unit) Nat := fun v _ => .ok v

/-! ## Helper lemmas (shared) -/

/-- Unfolding of `dispatch` when the reducer returns normally. -/
theorem dispatch_eq_ok {S A L E : Type} [DecidableEq S]
    (st : Store S A L E) (a : A) (next : S)
    (hok : st.reducer st.state a = .ok next) :
    st.dispatch a = .ok ({ st with state := next },
      if st.state = next then []
      else st.listeners.map (fun l => (l, st.state, next))) := by
  unfold Store.dispatch
  rw [hok]

/-- A successful `dispatch` keeps the listener registry and the reducer, and
every notification it emits names a registered listener. -/
theorem dispatch_frame_aux {S A L E : Type} [DecidableEq S]
    (st : Store S A L E) (a : A)
    (st2 : Store S A L E) (ntf : List (L × S × S))
    (h : st.dispatch a = .ok (st2, ntf)) :
    st2.listeners = st.listeners ∧ st2.reducer = st.reducer ∧
      ∀ p ∈ ntf, p.1 ∈ st.listeners := by
  revert h
  unfold Store.dispatch
  cases hr : st.reducer st.state a with
  | error e => intro h; exact absurd h (by simp)
  | ok next =>
    intro h
    rw [Except.ok.injEq, Prod.mk.injEq] at h
    obtain ⟨h1, h2⟩ := h
    subst h1
    refine ⟨rfl, rfl, ?_⟩
    intro p hp
    rw [← h2] at hp
    by_cases hc : st.state = next
    · rw [if_pos hc] at hp; cases hp
    · rw [if_neg hc] at hp
      obtain ⟨l, hl, hpl⟩ := List.mem_map.mp hp
      rw [← hpl]
      exact hl

/-- A listener absent from the registry receives no notification from any
sequence of dispatches, and stays absent. -/
theorem dispatchAll_not_mem {S A L E : Type} [DecidableEq S] [DecidableEq L]
    (acts : List A) (st : Store S A L E) (l : L) (hl : l ∉ st.listeners) :
    l ∉ (dispatchAll st acts).1.listeners ∧
      ∀ p ∈ (dispatchAll st acts).2, p.1 ≠ l := by
  induction acts generalizing st with
  | nil => exact ⟨hl, by intro p hp; cases hp⟩
  | cons a as ih =>
    unfold dispatchAll
    cases hd : st.dispatch a with
    | error e => exact ⟨hl, by intro p hp; cases hp⟩
    | ok pr =>
      obtain ⟨st2, ntf⟩ := pr
      obtain ⟨hL, _hR, hmem⟩ := dispatch_frame_aux st a st2 ntf hd
      have hl2 : l ∉ st2.listeners := by rw [hL]; exact hl
      obtain ⟨ih1, ih2⟩ := ih st2 hl2
      refine ⟨ih1, ?_⟩
      intro p hp
      rcases List.mem_append.mp hp with hp1 | hp2
      · intro hpl
        exact hl (hpl ▸ hmem p hp1)
      · exact ih2 p hp2

/-- The listener registry after `subscribe` has no duplicates when the old
one had none. -/
theorem subscribe_nodup {S A L E : Type} [DecidableEq L]
    (st : Store S A L E) (l : L) (hnd : st.listeners.Nodup) :
    (st.subscribe l).listeners.Nodup := by
  unfold Store.subscribe
  by_cases hc : l ∈ st.listeners
  · rw [if_pos hc]; exact hnd
  · rw [if_neg hc]
    simp only [List.nodup_append, List.nodup_cons]
    exact ⟨hnd, by simp, by simpa using fun hcon => hc hcon⟩

/-- After `subscribe`, the listener is registered. -/
theorem subscribe_mem {S A L E : Type} [DecidableEq L]
    (st : Store S A L E) (l : L) : l ∈ (st.subscribe l).listeners := by
  unfold Store.subscribe
  by_cases hc : l ∈ st.listeners
  · rw [if_pos hc]; exact hc
  · rw [if_neg hc]; simp

/-- Pointwise description of a successful run of the no-factory slice loop:
when each named sub-reducer, applied to the keyed slice of the dictionary
state, succeeds with the corresponding output value, `runSlices` returns
exactly those named outputs, in the declared order. -/
theorem runSlices_forall2 {V A E : Type}
    (reducers : List (String × (V → A → Except (PyErr E) V)))
    (r : Nat) (es : List (String × V)) (action : A)
    (outs : List (String × V))
    (h : List.Forall₂ (fun p q => p.1 = q.1 ∧
          ∃ v, es.lookup p.1 = some v ∧ p.2 v action = .ok q.2)
          reducers outs) :
    runSlices reducers (.dict r es) action = .ok outs := by
  induction reducers generalizing outs with
  | nil => cases h; rfl
  | cons p ps ih =>
    obtain ⟨name, R⟩ := p
    cases h with
    | cons hpq htail =>
      rename_i b l2
      obtain ⟨bn, bv⟩ := b
      obtain ⟨hname, v, hv, hok⟩ := hpq
      simp only at hname hv hok
      subst hname
      have hsub : subscript (E := E) (CState.dict r es) name = .ok v := by
        simp only [subscript, hv]
      simp only [runSlices, hsub, hok, ih l2 htail]

/-- Pointwise description of a successful run of the factory-mode slice
loop, reading slices as named attributes. -/
theorem runSlicesAttr_forall2 {V A E : Type}
    (reducers : List (String × (V → A → Except (PyErr E) V)))
    (r : Nat) (attrs : List (String × V)) (action : A)
    (outs : List (String × V))
    (h : List.Forall₂ (fun p q => p.1 = q.1 ∧
          ∃ v, attrs.lookup p.1 = some v ∧ p.2 v action = .ok q.2)
          reducers outs) :
    runSlicesAttr reducers (.obj r attrs) action = .ok outs := by
  induction reducers generalizing outs with
  | nil => cases h; rfl
  | cons p ps ih =>
    obtain ⟨name, R⟩ := p
    cases h with
    | cons hpq htail =>
      rename_i b l2
      obtain ⟨bn, bv⟩ := b
      obtain ⟨hname, v, hv, hok⟩ := hpq
      simp only at hname hv hok
      subst hname
      have hga : getattr (E := E) (AState.obj r attrs) name = .ok v := by
        simp only [getattr, hv]
      simp only [runSlicesAttr, hga, hok, ih l2 htail]

/-- Subscribing a listener that is already registered changes nothing. -/
theorem subscribe_mem_eq {S A L E : Type} [DecidableEq L]
    (st : Store S A L E) (l : L) (h : l ∈ st.listeners) :
    st.subscribe l = st := by
  unfold Store.subscribe
  rw [if_pos h]

/-- Subscribing a listener that was absent registers it exactly once. -/
theorem subscribe_count_one {S A L E : Type} [DecidableEq L]
    (st : Store S A L E) (l : L) (hl : l ∉ st.listeners) :
    (st.subscribe l).listeners.count l = 1 := by
  unfold Store.subscribe
  rw [if_neg hl]
  simp [List.count_append, List.count_eq_zero.mpr hl]

/-- Invoking an unsubscribe handle whose listener is absent changes
nothing. -/
theorem remove_listener_not_mem {S A L E : Type} [DecidableEq L]
    (st : Store S A L E) (l : L) (h : l ∉ st.listeners) :
    remove_listener st l = st := by
  unfold remove_listener
  rw [if_neg h]

/-- Unfolding of `dispatch` when the reducer returns a state different from
the current one. -/
theorem dispatch_ok_of_ne {S A L E : Type} [DecidableEq S]
    (st : Store S A L E) (a : A) (next : S)
    (hok : st.reducer st.state a = .ok next)
    (hne : next ≠ st.state) :
    st.dispatch a = .ok ({ st with state := next },
      st.listeners.map (fun l => (l, st.state, next))) := by
  rw [dispatch_eq_ok st a next hok, if_neg (Ne.symm hne)]

/-! ## Claim theorems -/

/-- C1: Change law: for every store, if the reducer applied to the current
state and a dispatched action returns a reference different from the
current state, then dispatch invokes every currently subscribed listener
exactly once, in subscription order, passing the previous state and the new
state as the two arguments (the notification list is exactly the listener
registry, in order, each paired with `(previous, next)`). -/
theorem C1_change_law {S A L E : Type} [DecidableEq S]
    (st : Store S A L E) (a : A) (next : S)
    (hok : st.reducer st.state a = .ok next)
    (hne : next ≠ st.state) :
    st.dispatch a = .ok ({ st with state := next },
      st.listeners.map (fun l => (l, st.state, next))) :=
  dispatch_ok_of_ne st a next hok hne

/-- Witness for C1 at a concrete store: state `0`, listeners `[1, 2]`,
reducer producing `1`: both listeners are notified once, in order, with
`(0, 1)`. -/
theorem C1_change_law_witness :
    incStore.dispatch () = .ok ({ incStore with state := 1 },
      [(1, 0, 1), (2, 0, 1)]) :=
  C1_change_law incStore () 1 rfl (by decide)

/-- C2: Identity no-op law: dispatch always stores the reducer's result as
the current state (even when it is the same reference as the previous
state), and when the reducer returns the same reference as the previous
state, no listener is invoked. -/
theorem C2_identity_noop {S A L E : Type} [DecidableEq S]
    (st : Store S A L E) (a : A) (next : S)
    (hok : st.reducer st.state a = .ok next) :
    ∃ ntf, st.dispatch a = .ok ({ st with state := next }, ntf) ∧
      (next = st.state → ntf = []) := by
  refine ⟨_, dispatch_eq_ok st a next hok, ?_⟩
  intro h
  rw [if_pos h.symm]

/-- Witness for C2 at a concrete store whose reducer returns the state
unchanged: the state is re-stored and the notification list is empty. -/
theorem C2_identity_noop_witness :
    ∃ ntf, idStore.dispatch () = .ok ({ idStore with state := 5 }, ntf) ∧
      ((5 : Nat) = idStore.state → ntf = []) :=
  C2_identity_noop idStore () 5 rfl

/-- C3: Initialization law: construction alone stores the reducer, sets the
state to the absent value and the listener collection to empty (for any
reducer, including ones that always raise, so construction cannot be
invoking the reducer); and `create_store R` returns a store whose state is
`R(absent, initAction)`, still with no listeners. -/
theorem C3_init_law {S A L E : Type} [DecidableEq S]
    (R : S → A → Except E S) (noneS : S) (noneA : A) (s0 : S)
    (hok : R noneS noneA = .ok s0) :
    (Store.init (L := L) R noneS).reducer = R ∧
    (Store.init (L := L) R noneS).state = noneS ∧
    (Store.init (L := L) R noneS).listeners = [] ∧
    create_store (L := L) R noneS noneA =
      .ok { reducer := R, state := s0, listeners := [] } := by
  refine ⟨rfl, rfl, rfl, ?_⟩
  unfold create_store
  rw [dispatch_eq_ok _ noneA s0 hok]
  rfl

/-- Witness for C3: `create_store incR 0 ()` yields the store with state
`incR 0 () = 1` and no listeners. -/
theorem C3_init_law_witness :
    (Store.init (L := Nat) incR 0).reducer = incR ∧
    (Store.init (L := Nat) incR 0).state = 0 ∧
    (Store.init (L := Nat) incR 0).listeners = [] ∧
    create_store (L := Nat) incR 0 () =
      .ok { reducer := incR, state := 1, listeners := [] } :=
  C3_init_law incR 0 () 1 rfl

/-- C8: Reducer-error atomicity: if the reducer raises during dispatch, the
exception propagates synchronously to the caller of dispatch (the result is
that error), the store's state is unchanged from immediately before the
call, and no listener is invoked (the dispatch step leaves the store intact
and emits no notification). -/
theorem C8_reducer_error {S A L E : Type} [DecidableEq S]
    (st : Store S A L E) (a : A) (e : E)
    (herr : st.reducer st.state a = .error e) :
    st.dispatch a = .error e ∧ dispatchAll st [a] = (st, []) := by
  have hd : st.dispatch a = .error e := by
    unfold Store.dispatch; rw [herr]
  refine ⟨hd, ?_⟩
  unfold dispatchAll
  rw [hd]

/-- Witness for C8 at a concrete store whose reducer always raises. -/
theorem C8_reducer_error_witness :
    raisingStore.dispatch () = .error "boom" ∧
      dispatchAll raisingStore [()] = (raisingStore, []) :=
  C8_reducer_error raisingStore () "boom" rfl

/-- C10: Frame property: `subscribe` and invoking an unsubscribe handle
leave the store's current state (and reducer) unchanged, and a successful
dispatch leaves the listener registry — members and order — (and the
reducer) unchanged.  In this model reducers and listeners are pure values,
so the proviso that they do not themselves call store operations holds by
construction, and the state accessor is a pure projection, so reading it
changes nothing. -/
theorem C10_frame {S A L E : Type} [DecidableEq S] [DecidableEq L]
    (st : Store S A L E) (l : L) (a : A)
    (st2 : Store S A L E) (ntf : List (L × S × S))
    (hd : st.dispatch a = .ok (st2, ntf)) :
    (st.subscribe l).state = st.state ∧
    (st.subscribe l).reducer = st.reducer ∧
    (remove_listener st l).state = st.state ∧
    (remove_listener st l).reducer = st.reducer ∧
    st2.listeners = st.listeners ∧
    st2.reducer = st.reducer := by
  obtain ⟨h1, h2, _⟩ := dispatch_frame_aux st a st2 ntf hd
  refine ⟨?_, ?_, ?_, ?_, h1, h2⟩
  · unfold Store.subscribe; split <;> rfl
  · unfold Store.subscribe; split <;> rfl
  · unfold remove_listener; split <;> rfl
  · unfold remove_listener; split <;> rfl

/-- Witness for C10 at a concrete store and a concrete successful
dispatch. -/
theorem C10_frame_witness :
    (incStore.subscribe 3).state = incStore.state ∧
    (incStore.subscribe 3).reducer = incStore.reducer ∧
    (remove_listener incStore 3).state = incStore.state ∧
    (remove_listener incStore 3).reducer = incStore.reducer ∧
    ({ reducer := incR, state := 1, listeners := [1, 2] } :
        Store Nat Unit Nat Unit).listeners = incStore.listeners ∧
    ({ reducer := incR, state := 1, listeners := [1, 2] } :
        Store Nat Unit Nat Unit).reducer = incStore.reducer :=
  C10_frame incStore 3 ()
    { reducer := incR, state := 1, listeners := [1, 2] }
    [(1, 0, 1), (2, 0, 1)] rfl

/-- C4: Composition law without a factory: for any named reducer mapping,
any subscriptable dictionary state and any action, the combined reducer
returns the ordered mapping pairing each declared name, in declared order,
with that sub-reducer applied to the keyed slice; and the result is a newly
allocated container — its reference id is the fresh allocation id, so it is
not reference-identical to the input state — even when every sub-reducer
returned its slice unchanged (the hypothesis allows `outs` to repeat the
input slices verbatim). -/
theorem C4_composition_no_factory {V A E : Type}
    (reducers : List (String × (V → A → Except (PyErr E) V)))
    (r fresh : Nat) (es : List (String × V)) (action : A)
    (outs : List (String × V))
    (h : List.Forall₂ (fun p q => p.1 = q.1 ∧
          ∃ v, es.lookup p.1 = some v ∧ p.2 v action = .ok q.2)
          reducers outs)
    (hfresh : fresh ≠ r) :
    combine_reducers reducers fresh (.dict r es) action =
      .ok (.dict fresh outs) ∧
    CState.dict fresh outs ≠ CState.dict r es := by
  constructor
  · unfold combine_reducers
    rw [runSlices_forall2 reducers r es action outs h]
  · intro hc
    rw [CState.dict.injEq] at hc
    exact hfresh hc.1

/-- Witness for C4: two identity sub-reducers leave both slices unchanged,
yet the result is a dictionary with the fresh reference id `1`, distinct
from the input dictionary with reference id `0`. -/
theorem C4_composition_no_factory_witness :
    combine_reducers [("a", idV), ("b", idV)] 1
        (.dict 0 [("a", 10), ("b", 20)]) () =
      .ok (.dict 1 [("a", 10), ("b", 20)]) ∧
    CState.dict 1 [("a", 10), ("b", 20)] ≠
      CState.dict 0 [("a", 10), ("b", 20)] :=
  C4_composition_no_factory [("a", idV), ("b", idV)] 0 1
    [("a", 10), ("b", 20)] () [("a", 10), ("b", 20)]
    (List.Forall₂.cons ⟨rfl, 10, rfl, rfl⟩
      (List.Forall₂.cons ⟨rfl, 20, rfl, rfl⟩ List.Forall₂.nil))
    (by decide)

/-- C5: Composition law with a factory: for any named reducer mapping, any
state object exposing the mapped names as attributes, and any action, the
combined reducer returns the factory applied to the named results, where
each slice is read from the composite state as a named attribute. -/
theorem C5_composition_with_factory {V A E W : Type}
    (F : List (String × V) → W)
    (reducers : List (String × (V → A → Except (PyErr E) V)))
    (r : Nat) (attrs : List (String × V)) (action : A)
    (outs : List (String × V))
    (h : List.Forall₂ (fun p q => p.1 = q.1 ∧
          ∃ v, attrs.lookup p.1 = some v ∧ p.2 v action = .ok q.2)
          reducers outs) :
    combine_reducers_factory F reducers (.obj r attrs) action =
      .ok (F outs) := by
  unfold combine_reducers_factory
  rw [runSlicesAttr_forall2 reducers r attrs action outs h]

/-- Witness for C5: the factory receives exactly the named results, in
declared order. -/
theorem C5_composition_with_factory_witness :
    combine_reducers_factory (fun kw => kw.length) [("a", idV), ("b", idV)]
        (.obj 0 [("a", 10), ("b", 20)]) () = .ok 2 :=
  C5_composition_with_factory (fun kw => kw.length)
    [("a", idV), ("b", idV)] 0 [("a", 10), ("b", 20)] ()
    [("a", 10), ("b", 20)]
    (List.Forall₂.cons ⟨rfl, 10, rfl, rfl⟩
      (List.Forall₂.cons ⟨rfl, 20, rfl, rfl⟩ List.Forall₂.nil))

/-- C6: Unsubscribe law: after the unsubscribe handle for a listener
registered via `subscribe` is invoked, the listener is no longer in the
registry and is never notified by any subsequent sequence of dispatches;
invoking the same handle a second time is a no-op (and, being a total
function in this model, does not throw).  The `Nodup` hypothesis is the
registry invariant maintained by `subscribe` (see `subscribe_nodup`), which
is the only way the code adds listeners. -/
theorem C6_unsubscribe_law {S A L E : Type} [DecidableEq S] [DecidableEq L]
    (st : Store S A L E) (l : L) (acts : List A)
    (hnd : st.listeners.Nodup) :
    l ∉ (remove_listener (st.subscribe l) l).listeners ∧
    l ∉ ((dispatchAll (remove_listener (st.subscribe l) l) acts).2.map
          Prod.fst) ∧
    remove_listener (remove_listener (st.subscribe l) l) l =
      remove_listener (st.subscribe l) l := by
  have hnd1 : (st.subscribe l).listeners.Nodup := subscribe_nodup st l hnd
  have hmem : l ∈ (st.subscribe l).listeners := subscribe_mem st l
  have hout : l ∉ (remove_listener (st.subscribe l) l).listeners := by
    unfold remove_listener
    rw [if_pos hmem]
    exact hnd1.not_mem_erase
  refine ⟨hout, ?_, remove_listener_not_mem _ l hout⟩
  intro hc
  obtain ⟨p, hp, hpl⟩ := List.mem_map.mp hc
  exact (dispatchAll_not_mem acts _ l hout).2 p hp hpl

/-- Witness for C6 at a concrete store with listeners `[1, 2]`, subscribing
and unsubscribing listener `3`, then dispatching one state-changing
action. -/
theorem C6_unsubscribe_law_witness :
    3 ∉ (remove_listener (incStore.subscribe 3) 3).listeners ∧
    3 ∉ ((dispatchAll (remove_listener (incStore.subscribe 3) 3) [()]).2.map
          Prod.fst) ∧
    remove_listener (remove_listener (incStore.subscribe 3) 3) 3 =
      remove_listener (incStore.subscribe 3) 3 :=
  C6_unsubscribe_law incStore 3 [()] (by decide)

/-- C7: Duplicate-subscribe law: calling `subscribe` twice with the same
listener reference registers it only once (the second call is a no-op and
the registry counts the listener once), so a subsequent state-changing
dispatch notifies that listener exactly once, not twice. -/
theorem C7_duplicate_subscribe {S A L E : Type} [DecidableEq S]
    [DecidableEq L]
    (st : Store S A L E) (l : L) (a : A) (next : S)
    (hl : l ∉ st.listeners)
    (hok : (st.subscribe l).reducer (st.subscribe l).state a = .ok next)
    (hne : next ≠ (st.subscribe l).state) :
    (st.subscribe l).subscribe l = st.subscribe l ∧
    (st.subscribe l).listeners.count l = 1 ∧
    (st.subscribe l).dispatch a =
      .ok ({ st.subscribe l with state := next },
        (st.subscribe l).listeners.map
          (fun x => (x, (st.subscribe l).state, next))) ∧
    (((st.subscribe l).listeners.map
        (fun x => (x, (st.subscribe l).state, next))).map Prod.fst).count l
      = 1 := by
  refine ⟨subscribe_mem_eq _ l (subscribe_mem st l),
    subscribe_count_one st l hl,
    dispatch_ok_of_ne _ a next hok hne, ?_⟩
  rw [List.map_map]
  have hcomp :
      (Prod.fst ∘ fun x : L => (x, (st.subscribe l).state, next)) = id := rfl
  rw [hcomp, List.map_id]
  exact subscribe_count_one st l hl

/-- Witness for C7: subscribing listener `3` twice to a store that does not
contain it, then dispatching a state-changing action, notifies `3` exactly
once. -/
theorem C7_duplicate_subscribe_witness :
    (incStore.subscribe 3).subscribe 3 = incStore.subscribe 3 ∧
    (incStore.subscribe 3).listeners.count 3 = 1 ∧
    (incStore.subscribe 3).dispatch () =
      .ok ({ incStore.subscribe 3 with state := 1 },
        (incStore.subscribe 3).listeners.map
          (fun x => (x, (incStore.subscribe 3).state, 1))) ∧
    (((incStore.subscribe 3).listeners.map
        (fun x => (x, (incStore.subscribe 3).state, 1))).map Prod.fst).count 3
      = 1 :=
  C7_duplicate_subscribe incStore 3 () 1 (by decide) rfl (by decide)

/-- C9: For every non-empty reducer mapping, the combined reducer without a
state factory raises `TypeError` when applied to the absent (`None`) state
(subscripting `None` fails); with a state factory it raises
`AttributeError` when applied to `None` or to a state lacking the first
mapped attribute; consequently `create_store` applied directly to such a
combined reducer raises during its initializing dispatch instead of
returning a store. -/
theorem C9_combined_on_none {V A E W L : Type} [DecidableEq V]
    (F : List (String × V) → W)
    (name : String) (R : V → A → Except (PyErr E) V)
    (rest : List (String × (V → A → Except (PyErr E) V)))
    (fresh : Nat) (action noneA : A)
    (r : Nat) (attrs : List (String × V))
    (hmiss : attrs.lookup name = Option.none) :
    combine_reducers ((name, R) :: rest) fresh CState.none action =
      .error .typeErr ∧
    combine_reducers_factory F ((name, R) :: rest) AState.none action =
      .error .attrErr ∧
    combine_reducers_factory F ((name, R) :: rest) (.obj r attrs) action =
      .error .attrErr ∧
    create_store (L := L) (combine_reducers ((name, R) :: rest) fresh)
        CState.none noneA = .error .typeErr := by
  refine ⟨rfl, rfl, ?_, rfl⟩
  have hga : getattr (E := E) (AState.obj r attrs) name = .error .attrErr := by
    simp only [getattr, hmiss]
  simp only [combine_reducers_factory, runSlicesAttr, hga]

/-- Witness for C9 with the singleton mapping `{"a": idV}`: both composed
reducers raise on `None`, the factory mode raises on an object lacking the
attribute `"a"`, and `create_store` on the combined reducer raises during
the initializing dispatch. -/
theorem C9_combined_on_none_witness :
    combine_reducers [("a", idV)] 5 CState.none () = .error .typeErr ∧
    combine_reducers_factory (fun kw => kw.length) [("a", idV)]
        AState.none () = .error .attrErr ∧
    combine_reducers_factory (fun kw => kw.length) [("a", idV)]
        (.obj 0 [("b", 7)]) () = .error .attrErr ∧
    create_store (L := Unit) (combine_reducers [("a", idV)] 5)
        CState.none () = .error .typeErr :=
  C9_combined_on_none (fun kw => kw.length) "a" idV [] 5 () () 0
    [("b", 7)] rfl

end Redux
